import Mathlib

/-!
Shallow embedding of the camera core of the `lighthouse-engine` repository
(`src/core/camera.rs`), together with theorems checking the repository's
specification against it.  `f32` values are embedded as rationals; the
window and shader-program references are embedded as opaque numeric handles.
-/

/-- 2-component vector (`nalgebra_glm::Vec2`), components embedded as `ℚ`. -/
@[ext] structure Vec2 where
  x : ℚ
  y : ℚ
deriving DecidableEq

/-- 3-component vector (`nalgebra_glm::Vec3`), components embedded as `ℚ`. -/
@[ext] structure Vec3 where
  x : ℚ
  y : ℚ
  z : ℚ
deriving DecidableEq

/-- Componentwise addition of `Vec3` (the `+` of `nalgebra_glm`). -/
def Vec3.add (a b : Vec3) : Vec3 :=
  ⟨a.x + b.x, a.y + b.y, a.z + b.z⟩

/-- Zero vector. -/
def Vec3.zero : Vec3 := ⟨0, 0, 0⟩

/-- Division of a `Vec2` by a scalar (`screen_size / 2.0` in the source). -/
def Vec2.divScalar (v : Vec2) (s : ℚ) : Vec2 :=
  ⟨v.x / s, v.y / s⟩

/-- Opaque handle standing for a `&beryllium::GlWindow` reference. -/
structure GlWindow where
  id : Nat
deriving DecidableEq

/-- Opaque handle standing for a `&ShaderProgram` reference. -/
structure ShaderProgram where
  id : Nat
deriving DecidableEq

/-- `CameraSettings` from `src/core/camera.rs` (fields in source order). -/
structure CameraSettings where
  screen_size : Vec2
  fov : ℚ
  sensitivity : ℚ
  win : GlWindow
  near_plane : ℚ
  far_plane : ℚ
  shader_program : ShaderProgram
deriving DecidableEq

/-- `CameraSettingsBuilder` from `src/core/camera.rs`: mandatory fields are
`Option`s, optional fields carry their running value. -/
structure CameraSettingsBuilder where
  screen_size : Option Vec2
  fov : ℚ
  sensitivity : ℚ
  win : Option GlWindow
  near_plane : ℚ
  far_plane : ℚ
  shader_program : Option ShaderProgram
deriving DecidableEq

/-- `CameraSettingsBuilder::new()`. -/
def CameraSettingsBuilder.new : CameraSettingsBuilder :=
  { screen_size := none
    fov := 45.0
    win := none
    sensitivity := 1.0
    near_plane := 0.1
    far_plane := 100.0
    shader_program := none }

/-- Builder method `.screen_size(v)`. -/
def CameraSettingsBuilder.setScreenSize (b : CameraSettingsBuilder) (v : Vec2) :
    CameraSettingsBuilder :=
  { b with screen_size := some v }

/-- Builder method `.fov(f)`. -/
def CameraSettingsBuilder.setFov (b : CameraSettingsBuilder) (f : ℚ) :
    CameraSettingsBuilder :=
  { b with fov := f }

/-- Builder method `.sensitivity(s)`. -/
def CameraSettingsBuilder.setSensitivity (b : CameraSettingsBuilder) (s : ℚ) :
    CameraSettingsBuilder :=
  { b with sensitivity := s }

/-- Builder method `.win(w)`. -/
def CameraSettingsBuilder.setWin (b : CameraSettingsBuilder) (w : GlWindow) :
    CameraSettingsBuilder :=
  { b with win := w }

/-- Builder method `.near_plane(n)`. -/
def CameraSettingsBuilder.setNearPlane (b : CameraSettingsBuilder) (n : ℚ) :
    CameraSettingsBuilder :=
  { b with near_plane := n }

/-- Builder method `.far_plane(f)`. -/
def CameraSettingsBuilder.setFarPlane (b : CameraSettingsBuilder) (f : ℚ) :
    CameraSettingsBuilder :=
  { b with far_plane := f }

/-- Builder method `.shader_program(p)`. -/
def CameraSettingsBuilder.setShaderProgram (b : CameraSettingsBuilder)
    (p : ShaderProgram) : CameraSettingsBuilder :=
  { b with shader_program := p }

/-- `CameraSettingsBuilder::build()`.  A Rust `expect` panic is embedded as
`Except.error` carrying the panic message; the `Option` fields are forced in
the evaluation order of the Rust struct literal (`screen_size`, then `win`,
then `shader_program`).  Note the source hardcodes `fov`, `near_plane` and
`far_plane` here instead of reading the builder's fields; only `sensitivity`
is copied from the builder. -/
def CameraSettingsBuilder.build (b : CameraSettingsBuilder) :
    Except String CameraSettings :=
  match b.screen_size with
  | none => Except.error "Error: argument screen width is not satisfied\nhelp: you can call .screen_width"
  | some ss =>
    match b.win with
    | none => Except.error "Error: argument window is not satisfied\nhelp: you can call .win"
    | some w =>
      match b.shader_program with
      | none => Except.error "Error: argument shadeer program is not satisfied\nhelp: you can call .shader_program"
      | some sp =>
        Except.ok
          { screen_size := ss
            fov := 45.0
            sensitivity := b.sensitivity
            win := w
            near_plane := 0.1
            far_plane := 100.0
            shader_program := sp }

/-- `true` when the first character list occurs at the head of the second. -/
def seqStarts : List Char → List Char → Bool
  | [], _ => true
  | _ :: _, [] => false
  | a :: as, b :: bs => a == b && seqStarts as bs

/-- `true` when the first character list occurs contiguously inside the
second. -/
def seqContains (needle : List Char) : List Char → Bool
  | [] => seqStarts needle []
  | c :: rest => seqStarts needle (c :: rest) || seqContains needle rest

/-- `true` when `needle` occurs as a substring of `hay`. -/
def strContains (needle hay : String) : Bool :=
  seqContains needle.data hay.data

/-- 4x4 matrix over `ℚ`. -/
abbrev Mat4 := Matrix (Fin 4) (Fin 4) ℚ

/-- `nalgebra_glm::mat4`, building a 4x4 matrix from 16 components. -/
def mat4 (m11 m12 m13 m14 m21 m22 m23 m24 m31 m32 m33 m34 m41 m42 m43 m44 : ℚ) :
    Mat4 :=
  !![m11, m12, m13, m14; m21, m22, m23, m24; m31, m32, m33, m34; m41, m42, m43, m44]

/-- `f32::to_radians`, with the value of `PI` passed explicitly since `π` is
not rational: `x * (pi / 180)`. -/
def toRadians (pi x : ℚ) : ℚ :=
  x * (pi / 180)

/-- Record of the single side effect of `Camera::matrix`: the
`Uniform::new(shader_program, uniform).set_uniform_matrix(transpose, value)`
call. -/
structure MatrixUpload where
  program : ShaderProgram
  uniformName : String
  transpose : Bool
  value : Mat4

/-- `DefaultCamera` from `src/core/camera.rs`. -/
structure DefaultCamera where
  pos : Vec3
  rot : Vec3
  settings : CameraSettings
deriving DecidableEq

/-- `Object::get_pos` for `DefaultCamera`. -/
def DefaultCamera.get_pos (c : DefaultCamera) : Vec3 := c.pos

/-- `Object::get_rot` for `DefaultCamera`. -/
def DefaultCamera.get_rot (c : DefaultCamera) : Vec3 := c.rot

/-- `Object::set_pos` for `DefaultCamera`. -/
def DefaultCamera.set_pos (c : DefaultCamera) (p : Vec3) : DefaultCamera :=
  { c with pos := p }

/-- `Object::set_rot` for `DefaultCamera`. -/
def DefaultCamera.set_rot (c : DefaultCamera) (r : Vec3) : DefaultCamera :=
  { c with rot := r }

/-- `Object::update` for `DefaultCamera`: the source body is empty
(`fn update(&mut self) {}`). -/
def DefaultCamera.update (c : DefaultCamera) : DefaultCamera := c

/-- `Camera::get_camera_settings` for `DefaultCamera`. -/
def DefaultCamera.get_camera_settings (c : DefaultCamera) : CameraSettings :=
  c.settings

/-- The default `Camera::matrix` implementation, instantiated at
`DefaultCamera`.  The external `nalgebra_glm` functions `look_at` and
`perspective` are taken as parameters (the source calls them opaquely), as is
the rational stand-in for `PI`.  The body follows the source line by line:
`model` is the explicit identity literal, `view` is
`look_at(pos, pos + rot, (0,1,0))`, `proj` is
`perspective(screen_size.x / screen_size.y, fov.to_radians(), near, far)`,
and the product `proj * view * model` is uploaded untransposed. -/
def Camera.matrix (look_at : Vec3 → Vec3 → Vec3 → Mat4)
    (perspective : ℚ → ℚ → ℚ → ℚ → Mat4) (pi : ℚ)
    (cam : DefaultCamera) (uniform : String) : MatrixUpload :=
  let settings := cam.get_camera_settings
  let identity :=
    mat4 1.0 0.0 0.0 0.0 0.0 1.0 0.0 0.0 0.0 0.0 1.0 0.0 0.0 0.0 0.0 1.0
  let model := identity
  let view :=
    look_at cam.get_pos (Vec3.add cam.get_pos cam.get_rot) ⟨0.0, 1.0, 0.0⟩
  let proj :=
    perspective (settings.screen_size.x / settings.screen_size.y)
      (toRadians pi settings.fov) settings.near_plane settings.far_plane
  { program := cam.get_camera_settings.shader_program
    uniformName := uniform
    transpose := false
    value := proj * view * model }

/-- Key identifiers (`device_query::Keycode`); the seven keys the camera
distinguishes, plus representatives of the remaining variants, which all fall
into the source's `_ => ()` arm. -/
inductive Keycode where
  | W | A | S | D | LShift | RShift | Space
  | Escape | Q | E | R | F | Up | Down | Left | Right | Enter
deriving DecidableEq

/-- One iteration of the `for key in keys` loop of
`ControllableKey::on_key` for `DefaultCamera`. -/
def keyStep (cam : DefaultCamera) (key : Keycode) : DefaultCamera :=
  match key with
  | Keycode.W => { cam with pos := { cam.pos with z := cam.pos.z + 0.01 } }
  | Keycode.A => { cam with pos := { cam.pos with x := cam.pos.x + 0.01 } }
  | Keycode.S => { cam with pos := { cam.pos with z := cam.pos.z - 0.01 } }
  | Keycode.D => { cam with pos := { cam.pos with x := cam.pos.x - 0.01 } }
  | Keycode.LShift => { cam with pos := { cam.pos with y := cam.pos.y - 0.01 } }
  | Keycode.RShift => { cam with pos := { cam.pos with y := cam.pos.y - 0.01 } }
  | Keycode.Space => { cam with pos := { cam.pos with y := cam.pos.y + 0.01 } }
  | _ => cam

/-- `ControllableKey::on_key` for `DefaultCamera`: fold `keyStep` over the
pressed-key list. -/
def DefaultCamera.on_key (cam : DefaultCamera) (keys : List Keycode) :
    DefaultCamera :=
  keys.foldl keyStep cam

/-- Mouse button identifiers.  Modelled from the spec: the repository's
`core/mouse.rs` (which declares `MousePressed`) is not in the sources; the
spec describes "button identifiers" with left and right distinguished, and
`camera.rs` matches `LeftMouse`, `RightMouse` and a `_` catch-all. -/
inductive MousePressed where
  | LeftMouse | RightMouse | MiddleMouse | X1Mouse | X2Mouse
deriving DecidableEq

/-- `StateOfMouse` capture mode.  Modelled from the spec: `core/mouse.rs` is
not in the sources; the spec gives `mode: enum Free | Locked(anchor)` and
`camera.rs` constructs exactly `Free` and `Locked(vec)`. -/
inductive StateOfMouse where
  | Free
  | Locked (anchor : Vec2)
deriving DecidableEq

/-- Raw device snapshot of the mouse (`device_query::MouseState`): cursor
coordinates and button flags. -/
structure RawMouse where
  coords : ℤ × ℤ
  buttonPressed : List Bool
deriving DecidableEq

/-- `device_query::DeviceState`; `get_mouse()` reads the `mouse` field. -/
structure DeviceState where
  mouse : RawMouse
deriving DecidableEq

/-- The `Mouse` input component.  Modelled from the spec: `core/mouse.rs` is
not in the sources; `camera.rs` reads and writes its `state` and `mouse`
fields (the debounce timestamps live behind `get_pressed_cooldown`, which is
abstracted as an input list of debounced presses below). -/
structure Mouse where
  mouse : RawMouse
  state : StateOfMouse
deriving DecidableEq

/-- One iteration of the `for pressed in mouse.get_pressed_cooldown(..)` loop
of `ControllableMouse::on_mouse` for `DefaultCamera`: left press locks to
`screen_size / 2`, right press frees, any other button leaves the mode. -/
def pressStep (screen_size : Vec2) (st : StateOfMouse) (p : MousePressed) :
    StateOfMouse :=
  match p with
  | MousePressed.LeftMouse => StateOfMouse.Locked (screen_size.divScalar 2.0)
  | MousePressed.RightMouse => StateOfMouse.Free
  | _ => st

/-- Truncation of a rational toward zero (the `f32 as i32` cast). -/
def ratTrunc (q : ℚ) : ℤ :=
  Int.tdiv q.num q.den

/-- Result of one `on_mouse` call: the camera, the mouse, the device state,
and the list of `warp_mouse_in_window(x, y)` calls issued. -/
structure OnMouseResult where
  cam : DefaultCamera
  mouse : Mouse
  device : DeviceState
  warped : List (ℤ × ℤ)
deriving DecidableEq

/-- `ControllableMouse::on_mouse` for `DefaultCamera`.  `presses` stands for
the value of `mouse.get_pressed_cooldown(Duration::from_millis(100))` (the
debounced presses of this call; its implementation lives in the absent
`core/mouse.rs`), and `fresh` stands for the device snapshot produced by
`DeviceState::new()` when the Locked branch re-polls.  After the press loop,
`Free` does nothing further; `Locked(vec)` warps the cursor to the truncated
anchor, replaces the device state with the fresh poll, and re-reads the raw
mouse from it. -/
def DefaultCamera.on_mouse (cam : DefaultCamera) (mouse : Mouse)
    (device : DeviceState) (presses : List MousePressed)
    (fresh : DeviceState) : OnMouseResult :=
  let st := presses.foldl (pressStep cam.settings.screen_size) mouse.state
  match st with
  | StateOfMouse.Free =>
      { cam := cam
        mouse := { mouse with state := st }
        device := device
        warped := [] }
  | StateOfMouse.Locked vec =>
      { cam := cam
        mouse := { mouse with state := st, mouse := fresh.mouse }
        device := fresh
        warped := [(ratTrunc vec.x, ratTrunc vec.y)] }

/-- Per-key positional delta described by the spec for `on_key`. -/
def keyDelta : Keycode → Vec3
  | Keycode.W => ⟨0, 0, 0.01⟩
  | Keycode.A => ⟨0.01, 0, 0⟩
  | Keycode.S => ⟨0, 0, -0.01⟩
  | Keycode.D => ⟨-0.01, 0, 0⟩
  | Keycode.LShift => ⟨0, -0.01, 0⟩
  | Keycode.RShift => ⟨0, -0.01, 0⟩
  | Keycode.Space => ⟨0, 0.01, 0⟩
  | _ => Vec3.zero

/-- Unnormalized vector sum of the per-key deltas of a key list. -/
def sumDeltas (keys : List Keycode) : Vec3 :=
  keys.foldr (fun k acc => Vec3.add (keyDelta k) acc) Vec3.zero

/-- `true` exactly on the seven keys the camera's `on_key` match maps. -/
def isMovementKey : Keycode → Bool
  | Keycode.W | Keycode.A | Keycode.S | Keycode.D
  | Keycode.LShift | Keycode.RShift | Keycode.Space => true
  | _ => false

/-- Sample settings used by the closed witness theorems. -/
def sampleSettings : CameraSettings :=
  { screen_size := ⟨800, 600⟩
    fov := 45.0
    sensitivity := 1.0
    win := ⟨1⟩
    near_plane := 0.1
    far_plane := 100.0
    shader_program := ⟨2⟩ }

/-- Sample camera used by the closed witness theorems. -/
def sampleCam : DefaultCamera :=
  { pos := ⟨0, 0, -2⟩, rot := ⟨0, 0, 1⟩, settings := sampleSettings }

/-- Sample raw mouse snapshot used by the closed witness theorems. -/
def sampleRaw : RawMouse :=
  { coords := (10, 20), buttonPressed := [false, false, false] }

/-- Sample mouse (in Locked mode) used by the closed witness theorems. -/
def sampleMouse : Mouse :=
  { mouse := sampleRaw, state := StateOfMouse.Locked ⟨1, 2⟩ }

/-- Sample device state used by the closed witness theorems. -/
def sampleDev : DeviceState :=
  { mouse := sampleRaw }

/-- Sample re-polled device state used by the closed witness theorems. -/
def sampleFresh : DeviceState :=
  { mouse := { coords := (400, 300), buttonPressed := [true, false, false] } }

theorem Vec3.add_zero (v : Vec3) : Vec3.add v Vec3.zero = v := by
  ext <;> simp [Vec3.add, Vec3.zero]

theorem Vec3.add_assoc (a b c : Vec3) :
    Vec3.add (Vec3.add a b) c = Vec3.add a (Vec3.add b c) := by
  ext <;> simp [Vec3.add] <;> ring

theorem keyStep_pos (cam : DefaultCamera) (k : Keycode) :
    (keyStep cam k).pos = Vec3.add cam.pos (keyDelta k) := by
  cases k <;> ext <;>
    simp [keyStep, keyDelta, Vec3.add, Vec3.zero, sub_eq_add_neg]

theorem keyStep_rot (cam : DefaultCamera) (k : Keycode) :
    (keyStep cam k).rot = cam.rot := by
  cases k <;> rfl

theorem keyStep_settings (cam : DefaultCamera) (k : Keycode) :
    (keyStep cam k).settings = cam.settings := by
  cases k <;> rfl

theorem keyStep_unmapped (cam : DefaultCamera) (k : Keycode)
    (h : isMovementKey k = false) : keyStep cam k = cam := by
  cases k <;> first
    | rfl
    | simp [isMovementKey] at h

theorem on_key_pos (keys : List Keycode) :
    ∀ cam, (DefaultCamera.on_key cam keys).pos = Vec3.add cam.pos (sumDeltas keys) := by
  induction keys with
  | nil => intro cam; exact (Vec3.add_zero cam.pos).symm
  | cons k ks ih =>
      intro cam
      have h1 : DefaultCamera.on_key cam (k :: ks)
          = DefaultCamera.on_key (keyStep cam k) ks := rfl
      have h2 : sumDeltas (k :: ks) = Vec3.add (keyDelta k) (sumDeltas ks) := rfl
      rw [h1, ih, keyStep_pos, h2, Vec3.add_assoc]

theorem on_key_rot (keys : List Keycode) :
    ∀ cam, (DefaultCamera.on_key cam keys).rot = cam.rot := by
  induction keys with
  | nil => intro cam; rfl
  | cons k ks ih =>
      intro cam
      have h1 : DefaultCamera.on_key cam (k :: ks)
          = DefaultCamera.on_key (keyStep cam k) ks := rfl
      rw [h1, ih, keyStep_rot]

theorem on_key_settings (keys : List Keycode) :
    ∀ cam, (DefaultCamera.on_key cam keys).settings = cam.settings := by
  induction keys with
  | nil => intro cam; rfl
  | cons k ks ih =>
      intro cam
      have h1 : DefaultCamera.on_key cam (k :: ks)
          = DefaultCamera.on_key (keyStep cam k) ks := rfl
      rw [h1, ih, keyStep_settings]

theorem on_key_unmapped (keys : List Keycode) :
    ∀ cam, (∀ k ∈ keys, isMovementKey k = false) →
      DefaultCamera.on_key cam keys = cam := by
  induction keys with
  | nil => intro cam _; rfl
  | cons k ks ih =>
      intro cam h
      have h1 : DefaultCamera.on_key cam (k :: ks)
          = DefaultCamera.on_key (keyStep cam k) ks := rfl
      rw [h1, keyStep_unmapped cam k (h k (List.mem_cons_self k ks))]
      exact ih cam fun a ha => h a (List.mem_cons_of_mem k ha)

theorem foldl_pressStep_locked (ss : Vec2) (presses : List MousePressed) :
    ∀ a : Vec2, MousePressed.RightMouse ∉ presses →
      ∃ a2, presses.foldl (pressStep ss) (StateOfMouse.Locked a)
        = StateOfMouse.Locked a2 := by
  induction presses with
  | nil => intro a _; exact ⟨a, rfl⟩
  | cons p ps ih =>
      intro a h
      have hp : p ≠ MousePressed.RightMouse := by
        intro e; exact h (e ▸ List.mem_cons_self p ps)
      have hps : MousePressed.RightMouse ∉ ps :=
        fun m => h (List.mem_cons_of_mem p m)
      cases p with
      | LeftMouse => exact ih (ss.divScalar 2.0) hps
      | RightMouse => exact absurd rfl hp
      | MiddleMouse => exact ih a hps
      | X1Mouse => exact ih a hps
      | X2Mouse => exact ih a hps

theorem on_mouse_state (cam : DefaultCamera) (m : Mouse) (dev : DeviceState)
    (presses : List MousePressed) (fresh : DeviceState) :
    ((DefaultCamera.on_mouse cam m dev presses fresh).mouse).state
      = presses.foldl (pressStep cam.settings.screen_size) m.state := by
  cases h : presses.foldl (pressStep cam.settings.screen_size) m.state with
  | Free => simp [DefaultCamera.on_mouse, h]
  | Locked v => simp [DefaultCamera.on_mouse, h]

theorem mat4_one :
    mat4 1.0 0.0 0.0 0.0 0.0 1.0 0.0 0.0 0.0 0.0 1.0 0.0 0.0 0.0 0.0 1.0
      = (1 : Mat4) := by
  ext i j
  fin_cases i <;> fin_cases j <;>
    simp [mat4, Matrix.one_apply, Matrix.vecHead, Matrix.vecTail] <;> norm_num

/-- C1: the claim says `build()` carries every optional setter's value into
the returned settings.  The code violates this: `build()` hardcodes
`fov = 45.0`, `near_plane = 0.1` and `far_plane = 100.0`, ignoring the
builder fields the setters wrote (only `sensitivity` is copied).  Evaluating
`build` on a builder configured with `fov 60`, `near_plane 0.5`,
`far_plane 200`, `sensitivity 2` returns the hardcoded values instead. -/
theorem builder_ignores_optional_setters :
    CameraSettingsBuilder.build
        (((((((CameraSettingsBuilder.new.setScreenSize ⟨800, 600⟩).setWin
          ⟨1⟩).setShaderProgram ⟨2⟩).setFov 60).setNearPlane 0.5).setFarPlane
          200).setSensitivity 2)
      = Except.ok
          { screen_size := ⟨800, 600⟩
            fov := 45.0
            sensitivity := 2
            win := ⟨1⟩
            near_plane := 0.1
            far_plane := 100.0
            shader_program := ⟨2⟩ }
    ∧ (45.0 : ℚ) ≠ 60 ∧ (0.1 : ℚ) ≠ 0.5 ∧ (100.0 : ℚ) ≠ 200 :=
  ⟨rfl, by norm_num, by norm_num, by norm_num⟩

/-- C2: the claim says a missing mandatory field fails with a message naming
the field.  `new().build()` does fail on `screen_size` first, but its message
names "screen width" and the nonexistent remedial call `.screen_width`, not
`screen_size`; the missing-`shader_program` message does name
`.shader_program`. -/
theorem builder_missing_field_message :
    CameraSettingsBuilder.build CameraSettingsBuilder.new
      = Except.error "Error: argument screen width is not satisfied\nhelp: you can call .screen_width"
    ∧ strContains "screen_size" "Error: argument screen width is not satisfied\nhelp: you can call .screen_width" = false
    ∧ CameraSettingsBuilder.build
        ((CameraSettingsBuilder.new.setScreenSize ⟨800, 600⟩).setWin ⟨1⟩)
      = Except.error "Error: argument shadeer program is not satisfied\nhelp: you can call .shader_program"
    ∧ strContains ".shader_program" "Error: argument shadeer program is not satisfied\nhelp: you can call .shader_program" = true := by
  refine ⟨rfl, ?_, rfl, ?_⟩ <;> rfl

/-- C3: `Camera::matrix` builds `model` as the identity, `view` as
`look_at(pos, pos + rot, (0,1,0))`, `proj` as
`perspective(screen_size.x / screen_size.y, radians(fov), near_plane,
far_plane)`, and uploads `proj * view * model` to the named uniform of the
settings' shader program with `transpose = false`. -/
theorem camera_matrix_mvp :
    ∀ (look_at : Vec3 → Vec3 → Vec3 → Mat4)
      (perspective : ℚ → ℚ → ℚ → ℚ → Mat4) (pi : ℚ)
      (cam : DefaultCamera) (uniform : String),
      Camera.matrix look_at perspective pi cam uniform
        = { program := cam.settings.shader_program
            uniformName := uniform
            transpose := false
            value :=
              perspective
                  (cam.settings.screen_size.x / cam.settings.screen_size.y)
                  (cam.settings.fov * (pi / 180)) cam.settings.near_plane
                  cam.settings.far_plane
                * look_at cam.pos (Vec3.add cam.pos cam.rot) ⟨0.0, 1.0, 0.0⟩
                * (1 : Mat4) } := by
  intro look_at perspective pi cam uniform
  simp only [Camera.matrix, DefaultCamera.get_camera_settings,
    DefaultCamera.get_pos, DefaultCamera.get_rot, toRadians, mat4_one]

/-- C4: each debounced press maps the mode as specified — `LeftMouse` to
`Locked(screen_size / 2)`, `RightMouse` to `Free`, any other button leaves it
— for every prior mode, and the mode after `on_mouse` is the fold of this
step over the debounced presses. -/
theorem on_mouse_press_transitions :
    (∀ (ss : Vec2) (st : StateOfMouse),
        pressStep ss st MousePressed.LeftMouse
            = StateOfMouse.Locked (ss.divScalar 2.0)
        ∧ pressStep ss st MousePressed.RightMouse = StateOfMouse.Free
        ∧ ∀ b : MousePressed, b ≠ MousePressed.LeftMouse →
            b ≠ MousePressed.RightMouse → pressStep ss st b = st)
    ∧ ∀ (cam : DefaultCamera) (m : Mouse) (dev : DeviceState)
        (presses : List MousePressed) (fresh : DeviceState),
        ((DefaultCamera.on_mouse cam m dev presses fresh).mouse).state
          = presses.foldl (pressStep cam.settings.screen_size) m.state := by
  constructor
  · intro ss st
    refine ⟨rfl, rfl, ?_⟩
    intro b h1 h2
    cases b with
    | LeftMouse => exact absurd rfl h1
    | RightMouse => exact absurd rfl h2
    | MiddleMouse => rfl
    | X1Mouse => rfl
    | X2Mouse => rfl
  · exact on_mouse_state

/-- Witness for C4 at a concrete unmapped button. -/
theorem on_mouse_press_transitions_w :
    pressStep ⟨800, 600⟩ StateOfMouse.Free MousePressed.MiddleMouse
      = StateOfMouse.Free :=
  (on_mouse_press_transitions.1 ⟨800, 600⟩ StateOfMouse.Free).2.2
    MousePressed.MiddleMouse (by decide) (by decide)

/-- C5: `on_key` adds for each pressed key a fixed `0.01` delta on the
corresponding axis (`W`→+z, `S`→−z, `A`→+x, `D`→−x, Shift→−y, Space→+y);
the net motion is the unnormalized vector sum of the per-key deltas, and
`W` with `A` raises both `z` and `x` by `0.01`. -/
theorem on_key_fixed_deltas :
    (∀ (cam : DefaultCamera) (keys : List Keycode),
        (DefaultCamera.on_key cam keys).pos = Vec3.add cam.pos (sumDeltas keys))
    ∧ keyDelta Keycode.W = ⟨0, 0, 0.01⟩
    ∧ keyDelta Keycode.S = ⟨0, 0, -0.01⟩
    ∧ keyDelta Keycode.A = ⟨0.01, 0, 0⟩
    ∧ keyDelta Keycode.D = ⟨-0.01, 0, 0⟩
    ∧ keyDelta Keycode.LShift = ⟨0, -0.01, 0⟩
    ∧ keyDelta Keycode.RShift = ⟨0, -0.01, 0⟩
    ∧ keyDelta Keycode.Space = ⟨0, 0.01, 0⟩
    ∧ ∀ cam : DefaultCamera,
        (DefaultCamera.on_key cam [Keycode.W, Keycode.A]).pos
          = ⟨cam.pos.x + 0.01, cam.pos.y, cam.pos.z + 0.01⟩ := by
  refine ⟨fun cam keys => on_key_pos keys cam,
    rfl, rfl, rfl, rfl, rfl, rfl, rfl, ?_⟩
  intro cam
  rfl

/-- C6: with only the mandatory fields supplied, `build()` returns exactly
`fov = 45.0`, `sensitivity = 1.0`, `near_plane = 0.1`, `far_plane = 100.0`. -/
theorem builder_defaults_hold :
    ∀ (ss : Vec2) (w : GlWindow) (sp : ShaderProgram),
      CameraSettingsBuilder.build
          (((CameraSettingsBuilder.new.setScreenSize ss).setWin
            w).setShaderProgram sp)
        = Except.ok
            { screen_size := ss
              fov := 45.0
              sensitivity := 1.0
              win := w
              near_plane := 0.1
              far_plane := 100.0
              shader_program := sp } :=
  fun _ _ _ => rfl

/-- C7: an `on_mouse` call starting in `Locked` mode ends still in `Locked`
mode unless `RightMouse` is among the debounced presses of that call. -/
theorem locked_mode_persists :
    ∀ (cam : DefaultCamera) (m : Mouse) (dev : DeviceState)
      (presses : List MousePressed) (fresh : DeviceState) (a : Vec2),
      m.state = StateOfMouse.Locked a →
      MousePressed.RightMouse ∉ presses →
      ∃ a2, ((DefaultCamera.on_mouse cam m dev presses fresh).mouse).state
        = StateOfMouse.Locked a2 := by
  intro cam m dev presses fresh a hst hni
  obtain ⟨a2, h⟩ := foldl_pressStep_locked cam.settings.screen_size presses a hni
  exact ⟨a2, by rw [on_mouse_state, hst, h]⟩

/-- Witness for C7: locked mode with a left and a middle press stays locked. -/
theorem locked_mode_persists_w :
    ∃ a2, ((DefaultCamera.on_mouse sampleCam sampleMouse sampleDev
        [MousePressed.LeftMouse, MousePressed.MiddleMouse] sampleFresh).mouse).state
      = StateOfMouse.Locked a2 :=
  locked_mode_persists sampleCam sampleMouse sampleDev
    [MousePressed.LeftMouse, MousePressed.MiddleMouse] sampleFresh ⟨1, 2⟩ rfl
    (by decide)

/-- C8: when the mode after the press loop is `Free`, `on_mouse` issues no
cursor warp, keeps the device state, and leaves the camera and the mouse's
raw state unchanged (only the capture mode was written). -/
theorem free_mode_no_action :
    ∀ (cam : DefaultCamera) (m : Mouse) (dev : DeviceState)
      (presses : List MousePressed) (fresh : DeviceState),
      presses.foldl (pressStep cam.settings.screen_size) m.state
          = StateOfMouse.Free →
      DefaultCamera.on_mouse cam m dev presses fresh
        = { cam := cam
            mouse := { m with state := StateOfMouse.Free }
            device := dev
            warped := [] } := by
  intro cam m dev presses fresh h
  simp [DefaultCamera.on_mouse, h]

/-- Witness for C8: a right press from locked mode frees the mouse and
nothing else happens. -/
theorem free_mode_no_action_w :
    DefaultCamera.on_mouse sampleCam sampleMouse sampleDev
        [MousePressed.RightMouse] sampleFresh
      = { cam := sampleCam
          mouse := { sampleMouse with state := StateOfMouse.Free }
          device := sampleDev
          warped := [] } :=
  free_mode_no_action sampleCam sampleMouse sampleDev [MousePressed.RightMouse]
    sampleFresh (by decide)

/-- C9: `DefaultCamera::update` is a no-op: position, rotation and settings
are all unchanged. -/
theorem update_is_noop :
    ∀ cam : DefaultCamera,
      (DefaultCamera.update cam).pos = cam.pos
      ∧ (DefaultCamera.update cam).rot = cam.rot
      ∧ (DefaultCamera.update cam).settings = cam.settings :=
  fun _ => ⟨rfl, rfl, rfl⟩

/-- C10: `on_key` only ever changes the position — rotation and settings are
untouched — unmapped keys change nothing per step, and a key list of only
unmapped keys leaves the whole camera unchanged. -/
theorem on_key_only_moves_position :
    ∀ (cam : DefaultCamera) (keys : List Keycode),
      ((DefaultCamera.on_key cam keys).rot = cam.rot
        ∧ (DefaultCamera.on_key cam keys).settings = cam.settings)
      ∧ (∀ k : Keycode, isMovementKey k = false → keyStep cam k = cam)
      ∧ ((∀ k ∈ keys, isMovementKey k = false) →
          DefaultCamera.on_key cam keys = cam) :=
  fun cam keys =>
    ⟨⟨on_key_rot keys cam, on_key_settings keys cam⟩,
      fun k hk => keyStep_unmapped cam k hk,
      fun h => on_key_unmapped keys cam h⟩

/-- Witness for C10: a list of two unmapped keys leaves the camera as is. -/
theorem on_key_only_moves_position_w :
    DefaultCamera.on_key sampleCam [Keycode.Escape, Keycode.Up] = sampleCam :=
  (on_key_only_moves_position sampleCam [Keycode.Escape, Keycode.Up]).2.2
    (by decide)
